import Mathlib

/-!
# Verification of the monthly sales forecasting engine

Shallow embedding of `src/flask_app.py` (the `/predict` handler,
`predict_sales`).  The engine consumes a time-ordered list of monthly
historical points and a forecast horizon, builds trend/cyclic features,
standardizes them, fits an ordinary least squares linear regression,
and projects the fitted model forward month by month.

Modelling conventions:
* Python floats are modelled as real numbers `ℝ`; `np.sin`/`np.cos` as
  `Real.sin`/`Real.cos`; Python's unbounded `int` as `ℤ`.
* `round(x, 2)` is modelled as exact decimal rounding to 2 places over `ℝ`
  (binary floating point representation is abstracted away).
* `pd.Timestamp(year, month, day=1)` raises `ValueError` when the month is
  outside `1..12`; this fallible call is modelled in the `Except String`
  monad (pandas' representable-year range is not modelled).  The
  `try/except` wrapper of the handler is the projection from
  `Except String Response` back to a `Response`, mapping an exception to a
  status-500 error body `{"error": str(e)}`.
* The database query is an external collaborator: the engine receives the
  already-materialized list of `(year, month, total_sales)` rows.
-/

/-- One aggregated historical month, as produced by the SQL query:
`(EXTRACT(YEAR ...), EXTRACT(MONTH ...), SUM(actualsales))`, converted by
`astype(int)/astype(int)/astype(float)` at lines 61-63 of the source. -/
structure HistoricalPoint where
  year : Int
  month : Int
  total_sales : ℝ

/-- One entry of the `predictions` output list (lines 118-124). -/
structure Prediction where
  year : Int
  month : Int
  month_name : String
  predicted_sales : ℝ
  date : String

/-- One entry of the `historical_data` output list (lines 132-138). -/
structure HistEntry where
  year : Int
  month : Int
  month_name : String
  total_sales : ℝ
  date : String

/-- The `model_info` object of a successful response (lines 143-148). -/
structure ModelInfo where
  type : String
  training_data_points : Nat
  mse : ℝ
  mape : ℝ

/-- The full successful response body (lines 140-149). -/
structure ForecastBundle where
  predictions : List Prediction
  historical_data : List HistEntry
  model_info : ModelInfo

/-- An HTTP response of the handler: either an error body
`{"error": msg}` with a status code, or the successful forecast bundle. -/
inductive Response where
  | error (msg : String) (status : Nat)
  | success (bundle : ForecastBundle)

/-- The `predictions` field exposed by a response, when present. -/
def Response.predictionsOut : Response → Option (List Prediction)
  | .success b => some b.predictions
  | .error _ _ => none

/-- The `historical_data` field exposed by a response, when present. -/
def Response.historicalOut : Response → Option (List HistEntry)
  | .success b => some b.historical_data
  | .error _ _ => none

/-- The `model_info` field exposed by a response, when present. -/
def Response.modelInfoOut : Response → Option ModelInfo
  | .success b => some b.model_info
  | .error _ _ => none

/-- `df['month_sin'] = np.sin(2 * np.pi * df['month'] / 12)` (line 67). -/
noncomputable def month_sin (m : Int) : ℝ := Real.sin (2 * Real.pi * m / 12)

/-- `df['month_cos'] = np.cos(2 * np.pi * df['month'] / 12)` (line 68). -/
noncomputable def month_cos (m : Int) : ℝ := Real.cos (2 * Real.pi * m / 12)

/-- A feature row `[time_index, month_sin, month_cos]` (lines 66-71, 109). -/
noncomputable def featureRow (t : Nat) (m : Int) : Fin 3 → ℝ :=
  ![(t : ℝ), month_sin m, month_cos m]

/-- Feature rows for a suffix of the series, the first row receiving
time index `t0`.  Helper for `histFeatures`. -/
noncomputable def featuresFrom (t0 : Nat) : List HistoricalPoint → List (Fin 3 → ℝ)
  | [] => []
  | p :: ps => featureRow t0 p.month :: featuresFrom (t0 + 1) ps

/-- The training feature matrix `X`: one row per historical point with
`time_index` running `1, 2, ..., n` in series order
(`df['time_index'] = range(1, len(df) + 1)`, line 66) and the cyclic month
encoding (lines 67-68, 71). -/
noncomputable def histFeatures (hist : List HistoricalPoint) : List (Fin 3 → ℝ) :=
  featuresFrom 1 hist

/-- The regression target `y = df['total_sales'].values` (line 72). -/
def yvals (hist : List HistoricalPoint) : List ℝ :=
  hist.map (·.total_sales)

/-- Mean of a list of reals (denominator is the length; empty list gives
division by zero, i.e. `0` in `ℝ`). -/
noncomputable def listMean (l : List ℝ) : ℝ := l.sum / l.length

/-- `StandardScaler` per-column mean, fitted on the matrix `X` (line 76). -/
noncomputable def colMean (X : List (Fin 3 → ℝ)) (j : Fin 3) : ℝ :=
  listMean (X.map (fun r => r j))

/-- `StandardScaler` per-column population variance (`ddof = 0`). -/
noncomputable def colVar (X : List (Fin 3 → ℝ)) (j : Fin 3) : ℝ :=
  listMean (X.map (fun r => (r j - colMean X j) ^ 2))

/-- `StandardScaler` per-column standard deviation. -/
noncomputable def colStd (X : List (Fin 3 → ℝ)) (j : Fin 3) : ℝ :=
  Real.sqrt (colVar X j)

/-- `StandardScaler` per-column scale: a zero standard deviation is
replaced by `1` (sklearn `_handle_zeros_in_scale`). -/
noncomputable def colScale (X : List (Fin 3 → ℝ)) (j : Fin 3) : ℝ :=
  if colStd X j = 0 then 1 else colStd X j

/-- `scaler_X.transform`: center by the fitted mean and divide by the
fitted scale, where both parameters come from the fit matrix `X`
(lines 76 and 110 use one and the same fitted `scaler_X`). -/
noncomputable def scalerTransform (X : List (Fin 3 → ℝ)) (r : Fin 3 → ℝ) : Fin 3 → ℝ :=
  fun j => (r j - colMean X j) / colScale X j

/-- `X_scaled = scaler_X.fit_transform(X)` (line 76). -/
noncomputable def scaledHist (hist : List HistoricalPoint) : List (Fin 3 → ℝ) :=
  (histFeatures hist).map (scalerTransform (histFeatures hist))

/-- Rows of `X` centered by the column means (sklearn's
`LinearRegression` centers the design matrix before solving, since
`fit_intercept=True`). -/
noncomputable def centeredCols (X : List (Fin 3 → ℝ)) : List (Fin 3 → ℝ) :=
  X.map (fun r j => r j - colMean X j)

/-- Gram matrix of the centered design matrix. -/
noncomputable def gramX (X : List (Fin 3 → ℝ)) : Matrix (Fin 3) (Fin 3) ℝ :=
  fun j k => ((centeredCols X).map (fun r => r j * r k)).sum

/-- The vector `Xcᵀ · yc` of the centered normal equations. -/
noncomputable def xty (X : List (Fin 3 → ℝ)) (y : List ℝ) : Fin 3 → ℝ :=
  fun j =>
    ((List.zip (centeredCols X) (y.map (fun v => v - listMean y))).map
      (fun q => q.1 j * q.2)).sum

/-- `model.coef_` after `model.fit(X, y)` (lines 79-80): the ordinary
least squares coefficients, here obtained from the centered normal
equations.  sklearn computes the minimum-norm least squares solution via
SVD; the two agree whenever the Gram matrix is invertible (full column
rank), which is the generic case for these features. -/
noncomputable def lrCoef (X : List (Fin 3 → ℝ)) (y : List ℝ) : Fin 3 → ℝ :=
  Matrix.mulVec (gramX X)⁻¹ (xty X y)

/-- `model.intercept_`: the target mean minus the coefficients applied to
the column means. -/
noncomputable def lrIntercept (X : List (Fin 3 → ℝ)) (y : List ℝ) : ℝ :=
  listMean y - ∑ j, colMean X j * lrCoef X y j

/-- `model.predict` on a single feature row. -/
noncomputable def lrPredict (X : List (Fin 3 → ℝ)) (y : List ℝ) (r : Fin 3 → ℝ) : ℝ :=
  lrIntercept X y + ∑ j, lrCoef X y j * r j

/-- In-sample fitted values `y_pred = model.predict(X_scaled)` (line 83). -/
noncomputable def yFitted (hist : List HistoricalPoint) : List ℝ :=
  (scaledHist hist).map (lrPredict (scaledHist hist) (yvals hist))

/-- `mse = mean_squared_error(y, y_pred)` (line 84). -/
noncomputable def mseVal (hist : List HistoricalPoint) : ℝ :=
  listMean ((List.zip (yvals hist) (yFitted hist)).map (fun q => (q.1 - q.2) ^ 2))

/-- `mean_absolute_percentage_error(y, y_pred)` (line 85, before the
`* 100`).  sklearn clamps the denominator `|y_i|` below by machine
epsilon; over `ℝ` the raw absolute value is used. -/
noncomputable def mape_raw (hist : List HistoricalPoint) : ℝ :=
  listMean ((List.zip (yvals hist) (yFitted hist)).map (fun q => |q.1 - q.2| / |q.1|))

/-- Python `round(x, 2)`: rounding to two decimal places, modelled as
exact decimal rounding over `ℝ`. -/
noncomputable def round2 (x : ℝ) : ℝ := (round (100 * x) : ℤ) / 100

/-- `strftime('%B')`: the English month name (lines 115, 135).  The
source only evaluates this after `pd.Timestamp` has accepted the month,
so the catch-all branch is never reached on the engine's paths. -/
def monthName : Int → String
  | 1 => "January"
  | 2 => "February"
  | 3 => "March"
  | 4 => "April"
  | 5 => "May"
  | 6 => "June"
  | 7 => "July"
  | 8 => "August"
  | 9 => "September"
  | 10 => "October"
  | 11 => "November"
  | 12 => "December"
  | _ => ""

/-- Zero-padding to two digits for the `%m` field of `strftime`. -/
def pad2 (n : Int) : String :=
  if n < 10 then "0" ++ toString n else toString n

/-- `strftime('%Y-%m-%d')` on the first day of the month (lines 116, 131):
the ISO date of the first of the month. -/
def dateStr (y m : Int) : String :=
  toString y ++ "-" ++ pad2 m ++ "-01"

/-- The validation performed by `pd.Timestamp(year=y, month=m, day=1)`:
a month outside `1..12` raises `ValueError` (string taken from pandas).
Reaching the handler's `except` clause turns it into a status-500 error. -/
def tsCheck (y m : Int) : Except String Unit :=
  if m < 1 ∨ m > 12 then .error "month must be in 1..12" else .ok ()

/-- The month-advance step of the projection loop (lines 97-102):
increment the month, rolling over to January of the next year when it
would exceed 12. -/
def nextMonth : Int × Int → Int × Int :=
  fun p => if p.2 + 1 > 12 then (p.1 + 1, 1) else (p.1, p.2 + 1)

/-- `(df['year'].iloc[-1], df['month'].iloc[-1])` (lines 88-89): year and
month of the last historical point (junk `(0, 0)` on the empty list,
which the `len(df) < 6` guard rules out). -/
def lastYM : List HistoricalPoint → Int × Int
  | [] => (0, 0)
  | [p] => (p.year, p.month)
  | _ :: p :: ps => lastYM (p :: ps)

/-- The `(current_year, current_month)` state after `i` iterations of the
projection loop, starting from the last historical point. -/
def projYM (hist : List HistoricalPoint) (i : Nat) : Int × Int :=
  nextMonth^[i] (lastYM hist)

/-- The raw feature row of projection step `i` (1-based):
`time_index = len(df) + i` (line 105) with the cyclic encoding of that
step's calendar month (lines 106-109). -/
noncomputable def projFeature (hist : List HistoricalPoint) (i : Nat) : Fin 3 → ℝ :=
  featureRow (hist.length + i) (projYM hist i).2

/-- `X_pred_scaled = scaler_X.transform(X_pred)` (line 110): the fixed
scaler fitted on the historical matrix, applied to step `i`'s row. -/
noncomputable def projScaled (hist : List HistoricalPoint) (i : Nat) : Fin 3 → ℝ :=
  scalerTransform (histFeatures hist) (projFeature hist i)

/-- The prediction record appended at step `i` of the loop
(lines 104-124), with the predicted value rounded to 2 decimals. -/
noncomputable def predPure (hist : List HistoricalPoint) (i : Nat) : Prediction :=
  { year := (projYM hist i).1
    month := (projYM hist i).2
    month_name := monthName (projYM hist i).2
    predicted_sales := round2 (lrPredict (scaledHist hist) (yvals hist) (projScaled hist i))
    date := dateStr (projYM hist i).1 (projYM hist i).2 }

/-- One iteration of the projection loop, including the fallible
`pd.Timestamp` calls (lines 115-116). -/
noncomputable def predStep (hist : List HistoricalPoint) (i : Nat) : Except String Prediction :=
  match tsCheck (projYM hist i).1 (projYM hist i).2 with
  | .ok _ => .ok (predPure hist i)
  | .error e => .error e

/-- The `historical_data` record for one input row (lines 129-138). -/
def histEntryPure (p : HistoricalPoint) : HistEntry :=
  { year := p.year
    month := p.month
    month_name := monthName p.month
    total_sales := p.total_sales
    date := dateStr p.year p.month }

/-- One iteration of the `historical_data` loop, including the fallible
`pd.Timestamp` calls (lines 131, 135). -/
def histStep (p : HistoricalPoint) : Except String HistEntry :=
  match tsCheck p.year p.month with
  | .ok _ => .ok (histEntryPure p)
  | .error e => .error e

/-- The `model_info` object (lines 143-148): fixed type tag, training
size, and the two fit metrics rounded to 2 decimals (`mape` having been
multiplied by 100 at line 85). -/
noncomputable def modelInfoOf (hist : List HistoricalPoint) : ModelInfo :=
  { type := "Linear Regression"
    training_data_points := hist.length
    mse := round2 (mseVal hist)
    mape := round2 (100 * mape_raw hist) }

/-- The body of the handler after both guards have passed: the projection
loop (lines 91-124), the historical echo loop (lines 127-138) and the
response assembly (lines 140-149), in source order, in the exception
monad. -/
noncomputable def buildBundle (months_ahead : Int) (hist : List HistoricalPoint) :
    Except String ForecastBundle := do
  let preds ← (List.range months_ahead.toNat).mapM (fun k => predStep hist (k + 1))
  let hd ← hist.mapM histStep
  pure { predictions := preds, historical_data := hd, model_info := modelInfoOf hist }

/-- The `try` block of `predict_sales` (lines 34-149): read the
`months_ahead` query parameter with default `1`, validate it, check the
data floor, then run the computation. -/
noncomputable def predictCore (monthsParam : Option Int) (hist : List HistoricalPoint) :
    Except String Response :=
  let months_ahead := monthsParam.getD 1
  if months_ahead < 1 ∨ months_ahead > 12 then
    .ok (.error "months_ahead must be between 1 and 12" 400)
  else if hist.length < 6 then
    .ok (.error "Not enough data for prediction" 400)
  else
    (buildBundle months_ahead hist).map Response.success

/-- The `/predict` handler `predict_sales` (lines 33-153): the `try`
block, with any raised exception caught and returned as a status-500
error body `{"error": str(e)}`. -/
noncomputable def predict_sales (monthsParam : Option Int) (hist : List HistoricalPoint) :
    Response :=
  match predictCore monthsParam hist with
  | .ok resp => resp
  | .error e => .error e 500

/-! ## Spec-level auxiliary notions -/

/-- Spec-level calendar successor of a month: "exactly one calendar month
after", rolling (Y, 12) over to (Y+1, 1). -/
def calSucc (y m : Int) : Int × Int :=
  if m = 12 then (y + 1, 1) else (y, m + 1)

/-- Linearization of a (year, month) pair onto a single month counter;
strictly monotone in chronological order for months in range. -/
def monthKey (p : Int × Int) : Int := 12 * p.1 + p.2

/-- A real number carrying at most 2 decimal places. -/
def isRounded2 (x : ℝ) : Prop := ∃ z : ℤ, x = (z : ℝ) / 100

/-! ## Helper lemmas -/

theorem round2_mem_isRounded2 (x : ℝ) : isRounded2 (round2 x) :=
  ⟨round (100 * x), rfl⟩

theorem mapM_ok {α β : Type} {f : α → Except String β} {g : α → β} :
    ∀ {l : List α}, (∀ a ∈ l, f a = .ok (g a)) → l.mapM f = .ok (l.map g) := by
  intro l
  induction l with
  | nil => intro _; rfl
  | cons a t ih =>
    intro h
    rw [List.mapM_cons, h a (List.mem_cons_self a t),
      ih (fun b hb => h b (List.mem_cons_of_mem _ hb))]
    rfl

theorem nextMonth_eq_calSucc {y m : Int} (h1 : 1 ≤ m) (h12 : m ≤ 12) :
    nextMonth (y, m) = calSucc y m := by
  unfold nextMonth calSucc
  by_cases hm : m = 12
  · subst hm; norm_num
  · have hlt : ¬(m + 1 > 12) := by omega
    simp [hlt, hm]

theorem nextMonth_month_bounds {p : Int × Int} (h1 : 1 ≤ p.2) (h12 : p.2 ≤ 12) :
    1 ≤ (nextMonth p).2 ∧ (nextMonth p).2 ≤ 12 := by
  unfold nextMonth
  by_cases h : p.2 + 1 > 12 <;> simp [h] <;> omega

theorem monthKey_nextMonth {p : Int × Int} (h1 : 1 ≤ p.2) (h12 : p.2 ≤ 12) :
    monthKey (nextMonth p) = monthKey p + 1 := by
  unfold nextMonth monthKey
  by_cases h : p.2 + 1 > 12 <;> simp [h] <;> omega

theorem projYM_zero (hist : List HistoricalPoint) : projYM hist 0 = lastYM hist := rfl

theorem projYM_succ (hist : List HistoricalPoint) (i : Nat) :
    projYM hist (i + 1) = nextMonth (projYM hist i) :=
  Function.iterate_succ_apply' nextMonth i (lastYM hist)

theorem projYM_month_bounds (hist : List HistoricalPoint)
    (h1 : 1 ≤ (lastYM hist).2) (h12 : (lastYM hist).2 ≤ 12) (i : Nat) :
    1 ≤ (projYM hist i).2 ∧ (projYM hist i).2 ≤ 12 := by
  induction i with
  | zero => exact ⟨h1, h12⟩
  | succ n ih =>
    rw [projYM_succ]
    exact nextMonth_month_bounds ih.1 ih.2

theorem projYM_key (hist : List HistoricalPoint)
    (h1 : 1 ≤ (lastYM hist).2) (h12 : (lastYM hist).2 ≤ 12) (i : Nat) :
    monthKey (projYM hist i) = monthKey (lastYM hist) + i := by
  induction i with
  | zero => simp [projYM_zero]
  | succ n ih =>
    have hb := projYM_month_bounds hist h1 h12 n
    rw [projYM_succ, monthKey_nextMonth hb.1 hb.2, ih]
    push_cast
    ring

theorem lastYM_mem : ∀ {hist : List HistoricalPoint}, hist ≠ [] →
    ∃ p ∈ hist, lastYM hist = (p.year, p.month) := by
  intro hist
  induction hist with
  | nil => intro h; exact absurd rfl h
  | cons a t ih =>
    intro _
    cases t with
    | nil => exact ⟨a, List.mem_cons_self a [], rfl⟩
    | cons b t2 =>
      obtain ⟨p, hp, he⟩ := ih (by simp)
      exact ⟨p, List.mem_cons_of_mem a hp, he⟩

theorem featuresFrom_length (l : List HistoricalPoint) :
    ∀ t0, (featuresFrom t0 l).length = l.length := by
  induction l with
  | nil => intro t0; rfl
  | cons p ps ih => intro t0; simp [featuresFrom, ih]

theorem histFeatures_length (hist : List HistoricalPoint) :
    (histFeatures hist).length = hist.length :=
  featuresFrom_length hist 1

theorem featuresFrom_get (l : List HistoricalPoint) :
    ∀ t0 k (hk : k < (featuresFrom t0 l).length) (hk2 : k < l.length),
      (featuresFrom t0 l).get ⟨k, hk⟩ = featureRow (t0 + k) (l.get ⟨k, hk2⟩).month := by
  induction l with
  | nil => intro t0 k hk hk2; exact absurd hk2 (by simp)
  | cons p ps ih =>
    intro t0 k hk hk2
    cases k with
    | zero => rfl
    | succ n =>
      have hn : n < (featuresFrom (t0 + 1) ps).length := by
        simpa [featuresFrom] using hk
      have hn2 : n < ps.length := by simpa using hk2
      have := ih (t0 + 1) n hn hn2
      simpa [featuresFrom, Nat.add_assoc, Nat.add_comm 1 n] using this

/-- On a month-valid nonempty series, the try-block body succeeds and
produces exactly the mapped projection list, the mapped historical echo
and the model info. -/
theorem buildBundle_ok (H : Int) (hist : List HistoricalPoint)
    (hne : hist ≠ [])
    (hm : ∀ p ∈ hist, 1 ≤ p.month ∧ p.month ≤ 12) :
    buildBundle H hist =
      .ok { predictions := (List.range H.toNat).map (fun k => predPure hist (k + 1)),
            historical_data := hist.map histEntryPure,
            model_info := modelInfoOf hist } := by
  have hlast : 1 ≤ (lastYM hist).2 ∧ (lastYM hist).2 ≤ 12 := by
    obtain ⟨p, hp, he⟩ := lastYM_mem hne
    rw [he]
    exact hm p hp
  have h1 : (List.range H.toNat).mapM (fun k => predStep hist (k + 1)) =
      .ok ((List.range H.toNat).map (fun k => predPure hist (k + 1))) := by
    apply mapM_ok
    intro k _
    have hb := projYM_month_bounds hist hlast.1 hlast.2 (k + 1)
    have hcond : ¬((projYM hist (k + 1)).2 < 1 ∨ (projYM hist (k + 1)).2 > 12) := by omega
    simp [predStep, tsCheck, hcond]
  have h2 : hist.mapM histStep = .ok (hist.map histEntryPure) := by
    apply mapM_ok
    intro p hp
    have hb := hm p hp
    have hcond : ¬(p.month < 1 ∨ p.month > 12) := by omega
    simp [histStep, tsCheck, hcond]
  simp only [buildBundle, h1, h2]
  rfl

/-- On valid horizon, month-valid series and sufficient length, the
handler returns the fully determined success bundle. -/
theorem predict_sales_ok (H : Int) (hist : List HistoricalPoint)
    (h1 : 1 ≤ H) (h12 : H ≤ 12) (hlen : 6 ≤ hist.length)
    (hm : ∀ p ∈ hist, 1 ≤ p.month ∧ p.month ≤ 12) :
    predict_sales (some H) hist =
      .success { predictions := (List.range H.toNat).map (fun k => predPure hist (k + 1)),
                 historical_data := hist.map histEntryPure,
                 model_info := modelInfoOf hist } := by
  have hne : hist ≠ [] := by
    intro h
    rw [h] at hlen
    simp at hlen
  unfold predict_sales predictCore
  simp only [Option.getD_some]
  rw [if_neg (by omega : ¬(H < 1 ∨ H > 12)), if_neg (by omega : ¬(hist.length < 6)),
    buildBundle_ok H hist hne hm]
  rfl

/-! ## Example inputs (the spec's scenario series, and a corrupted one) -/

/-- The spec's scenario series: six months of 2023 with the given totals. -/
noncomputable def exHist : List HistoricalPoint :=
  [⟨2023, 1, 100⟩, ⟨2023, 2, 110⟩, ⟨2023, 3, 105⟩,
   ⟨2023, 4, 120⟩, ⟨2023, 5, 130⟩, ⟨2023, 6, 125⟩]

/-- A five-point series, below the data floor. -/
noncomputable def exShort : List HistoricalPoint :=
  [⟨2023, 1, 100⟩, ⟨2023, 2, 110⟩, ⟨2023, 3, 105⟩,
   ⟨2023, 4, 120⟩, ⟨2023, 5, 130⟩]

/-- A six-point series whose second row carries the out-of-range month 0,
making the `pd.Timestamp` call of the historical echo loop raise. -/
noncomputable def badHist : List HistoricalPoint :=
  [⟨2023, 1, 100⟩, ⟨2023, 0, 110⟩, ⟨2023, 3, 105⟩,
   ⟨2023, 4, 120⟩, ⟨2023, 5, 130⟩, ⟨2023, 6, 125⟩]

/-! ## Claim theorems -/

/-- C2: for every integer horizon outside [1,12] (in particular 0, 13,
-1) and regardless of the historical series (hence before any data
fetch, fit or forecast), the handler returns the descriptive validation
error with status 400. -/
theorem C2_horizon_validated (hist : List HistoricalPoint) (H : Int)
    (hout : H < 1 ∨ H > 12) :
    predict_sales (some H) hist = .error "months_ahead must be between 1 and 12" 400 := by
  unfold predict_sales predictCore
  simp only [Option.getD_some]
  rw [if_pos hout]

theorem C2_horizon_validated_witness :
    (((13:Int) < 1 ∨ (13:Int) > 12) ∧
      predict_sales (some 13) exHist = .error "months_ahead must be between 1 and 12" 400) ∧
    (((0:Int) < 1 ∨ (0:Int) > 12) ∧
      predict_sales (some 0) exHist = .error "months_ahead must be between 1 and 12" 400) ∧
    (((-1:Int) < 1 ∨ (-1:Int) > 12) ∧
      predict_sales (some (-1)) exHist = .error "months_ahead must be between 1 and 12" 400) :=
  ⟨⟨by norm_num, C2_horizon_validated exHist 13 (by norm_num)⟩,
   ⟨by norm_num, C2_horizon_validated exHist 0 (by norm_num)⟩,
   ⟨by norm_num, C2_horizon_validated exHist (-1) (by norm_num)⟩⟩

/-- C3: for every series of at most 5 points and every valid horizon,
the handler returns the insufficient-data error with status 400 — no
features, scaler, fit or forecast points are produced. -/
theorem C3_insufficient_data (hist : List HistoricalPoint) (H : Int)
    (h1 : 1 ≤ H) (h12 : H ≤ 12) (hlen : hist.length ≤ 5) :
    predict_sales (some H) hist = .error "Not enough data for prediction" 400 := by
  unfold predict_sales predictCore
  simp only [Option.getD_some]
  rw [if_neg (by omega : ¬(H < 1 ∨ H > 12)), if_pos (by omega : hist.length < 6)]

theorem C3_insufficient_data_witness :
    ((1:Int) ≤ 2 ∧ (2:Int) ≤ 12 ∧ exShort.length ≤ 5) ∧
    predict_sales (some 2) exShort = .error "Not enough data for prediction" 400 :=
  ⟨⟨by norm_num, by norm_num, by decide⟩,
   C3_insufficient_data exShort 2 (by norm_num) (by norm_num) (by decide)⟩

/-- C8: the handler is a pure function of the historical series and the
horizon: two invocations with identical inputs produce identical
responses (identical predictions and metrics, no hidden randomness). -/
theorem C8_deterministic (p₁ p₂ : Option Int) (h₁ h₂ : List HistoricalPoint)
    (hp : p₁ = p₂) (hh : h₁ = h₂) :
    predict_sales p₁ h₁ = predict_sales p₂ h₂ := by
  rw [hp, hh]

theorem C8_deterministic_witness :
    predict_sales (some 2) exHist = predict_sales (some 2) exHist :=
  C8_deterministic (some 2) (some 2) exHist exHist rfl rfl

/-- C9: every exception raised by the try-block body is surfaced to the
caller as a status-500 error carrying the exception message, and the
error response exposes no predictions, historical data or model info. -/
theorem C9_error_no_partial (p : Option Int) (hist : List HistoricalPoint) (e : String)
    (hfail : predictCore p hist = .error e) :
    predict_sales p hist = .error e 500 ∧
    (predict_sales p hist).predictionsOut = none ∧
    (predict_sales p hist).historicalOut = none ∧
    (predict_sales p hist).modelInfoOut = none := by
  unfold predict_sales
  rw [hfail]
  exact ⟨rfl, rfl, rfl, rfl⟩

theorem C9_error_no_partial_witness :
    predictCore (some 1) badHist = .error "month must be in 1..12" ∧
    (predict_sales (some 1) badHist = .error "month must be in 1..12" 500 ∧
     (predict_sales (some 1) badHist).predictionsOut = none ∧
     (predict_sales (some 1) badHist).historicalOut = none ∧
     (predict_sales (some 1) badHist).modelInfoOut = none) :=
  ⟨rfl, C9_error_no_partial (some 1) badHist "month must be in 1..12" rfl⟩

/-- C10: with `months_ahead` absent the handler does not reject the
request: the horizon defaults to 1 and, on a month-valid series of at
least 6 points, exactly one forecast point is returned. -/
theorem C10_default_horizon (hist : List HistoricalPoint)
    (hlen : 6 ≤ hist.length) (hm : ∀ p ∈ hist, 1 ≤ p.month ∧ p.month ≤ 12) :
    predict_sales none hist = predict_sales (some 1) hist ∧
    ∃ b, predict_sales none hist = .success b ∧ b.predictions.length = 1 := by
  refine ⟨rfl, ?_⟩
  refine ⟨_, (rfl : predict_sales none hist = predict_sales (some 1) hist).trans
    (predict_sales_ok 1 hist (by norm_num) (by norm_num) hlen hm), ?_⟩
  simp

theorem C10_default_horizon_witness :
    (6 ≤ exHist.length ∧ (∀ p ∈ exHist, 1 ≤ p.month ∧ p.month ≤ 12)) ∧
    (predict_sales none exHist = predict_sales (some 1) exHist ∧
     ∃ b, predict_sales none exHist = .success b ∧ b.predictions.length = 1) :=
  ⟨⟨by decide, by decide⟩, C10_default_horizon exHist (by decide) (by decide)⟩

/-- Calendar successor stated on a pair (uses structure eta). -/
theorem nextMonth_pair (p : Int × Int) (h1 : 1 ≤ p.2) (h12 : p.2 ≤ 12) :
    nextMonth p = calSucc p.1 p.2 :=
  nextMonth_eq_calSucc h1 h12

/-- The k-th element of the prediction list built on the success path. -/
theorem predsGet (hist : List HistoricalPoint) (H : Int) (k : Nat)
    (hk : k < ((List.range H.toNat).map (fun k => predPure hist (k + 1))).length) :
    ((List.range H.toNat).map (fun k => predPure hist (k + 1))).get ⟨k, hk⟩ =
      predPure hist (k + 1) := by
  simp [List.get_eq_getElem]

/-- C1: on a valid horizon H and a month-valid series of length ≥ 6, the
handler succeeds with exactly H forecast points; the first is the
calendar successor of the last historical (year, month), each further
point is the calendar successor of its predecessor, the linearized month
keys increase strictly by exactly one month per step, and a December
ending rolls over to January of the next year. -/
theorem C1_forecast_points_chronology (hist : List HistoricalPoint) (H : Int)
    (h1 : 1 ≤ H) (h12 : H ≤ 12) (hlen : 6 ≤ hist.length)
    (hm : ∀ p ∈ hist, 1 ≤ p.month ∧ p.month ≤ 12) :
    ∃ b : ForecastBundle,
      predict_sales (some H) hist = .success b ∧
      (b.predictions.length : Int) = H ∧
      (∀ hk : 0 < b.predictions.length,
        ((b.predictions.get ⟨0, hk⟩).year, (b.predictions.get ⟨0, hk⟩).month) =
          calSucc (lastYM hist).1 (lastYM hist).2) ∧
      (∀ k (hk : k + 1 < b.predictions.length),
        ((b.predictions.get ⟨k + 1, hk⟩).year, (b.predictions.get ⟨k + 1, hk⟩).month) =
          calSucc (b.predictions.get ⟨k, Nat.lt_of_succ_lt hk⟩).year
            (b.predictions.get ⟨k, Nat.lt_of_succ_lt hk⟩).month) ∧
      (∀ k (hk : k < b.predictions.length),
        monthKey ((b.predictions.get ⟨k, hk⟩).year, (b.predictions.get ⟨k, hk⟩).month) =
          monthKey (lastYM hist) + (k + 1)) ∧
      ((lastYM hist).2 = 12 → ∀ hk : 0 < b.predictions.length,
        (b.predictions.get ⟨0, hk⟩).year = (lastYM hist).1 + 1 ∧
        (b.predictions.get ⟨0, hk⟩).month = 1) := by
  have hne : hist ≠ [] := by
    intro h
    rw [h] at hlen
    simp at hlen
  have hlast : 1 ≤ (lastYM hist).2 ∧ (lastYM hist).2 ≤ 12 := by
    obtain ⟨p, hp, he⟩ := lastYM_mem hne
    rw [he]
    exact hm p hp
  have hfirst : ∀ hk : 0 < ((List.range H.toNat).map
      (fun k => predPure hist (k + 1))).length,
      ((((List.range H.toNat).map (fun k => predPure hist (k + 1))).get ⟨0, hk⟩).year,
       (((List.range H.toNat).map (fun k => predPure hist (k + 1))).get ⟨0, hk⟩).month) =
        calSucc (lastYM hist).1 (lastYM hist).2 := by
    intro hk
    rw [predsGet hist H 0 hk]
    show projYM hist 1 = _
    rw [projYM_succ, projYM_zero]
    exact nextMonth_pair (lastYM hist) hlast.1 hlast.2
  refine ⟨_, predict_sales_ok H hist h1 h12 hlen hm, ?_, hfirst, ?_, ?_, ?_⟩
  · simp [Int.toNat_of_nonneg (by omega : (0:Int) ≤ H)]
  · intro k hk
    rw [predsGet hist H (k + 1) hk, predsGet hist H k (Nat.lt_of_succ_lt hk)]
    show projYM hist (k + 2) = _
    rw [projYM_succ]
    have hb := projYM_month_bounds hist hlast.1 hlast.2 (k + 1)
    exact nextMonth_pair (projYM hist (k + 1)) hb.1 hb.2
  · intro k hk
    rw [predsGet hist H k hk]
    show monthKey (projYM hist (k + 1)) = _
    rw [projYM_key hist hlast.1 hlast.2 (k + 1)]
    push_cast
    ring
  · intro h12m hk
    have := hfirst hk
    rw [h12m] at this
    simp only [calSucc, if_pos rfl] at this
    exact ⟨congrArg Prod.fst this, congrArg Prod.snd this⟩

/-- C4: the feature builder assigns `time_index` values 1..n in series
order (the k-th row, 0-based, carries k+1 — independent of the calendar
month), and the projected feature row of step i carries
`time_index = n + i`, continuing the same sequence. -/
theorem C4_time_index_sequence (hist : List HistoricalPoint) (k i : Nat)
    (hk : k < (histFeatures hist).length) (hi : 1 ≤ i) :
    (histFeatures hist).length = hist.length ∧
    (histFeatures hist).get ⟨k, hk⟩ 0 = ((k + 1 : ℕ) : ℝ) ∧
    projFeature hist i 0 = ((hist.length + i : ℕ) : ℝ) := by
  have hk2 : k < hist.length := by
    rw [← histFeatures_length hist]
    exact hk
  refine ⟨histFeatures_length hist, ?_, ?_⟩
  · show (featuresFrom 1 hist).get ⟨k, hk⟩ 0 = ((k + 1 : ℕ) : ℝ)
    rw [featuresFrom_get hist 1 k hk hk2]
    simp [featureRow, Nat.add_comm]
  · simp [projFeature, featureRow]

/-- C5: every forecast point's value is the once-fitted model applied to
the step's raw features standardized with the scaler parameters
(`colMean`/`colScale`) fitted on the full historical feature matrix —
the same unchanged parameters at every step, no refit in the loop. -/
theorem C5_scaler_fitted_once (hist : List HistoricalPoint) (H : Int)
    (h1 : 1 ≤ H) (h12 : H ≤ 12) (hlen : 6 ≤ hist.length)
    (hm : ∀ p ∈ hist, 1 ≤ p.month ∧ p.month ≤ 12) :
    ∃ b : ForecastBundle,
      predict_sales (some H) hist = .success b ∧
      ∀ k (hk : k < b.predictions.length),
        (b.predictions.get ⟨k, hk⟩).predicted_sales =
          round2 (lrPredict (scaledHist hist) (yvals hist)
            (fun j => (projFeature hist (k + 1) j - colMean (histFeatures hist) j) /
              colScale (histFeatures hist) j)) := by
  refine ⟨_, predict_sales_ok H hist h1 h12 hlen hm, ?_⟩
  intro k hk
  rw [predsGet hist H k hk]
  rfl

/-- C6: in a successful result every predicted value, the mse and the
mape are rounded to exactly two decimal places, the mape having been put
in percentage units (multiplied by 100) before rounding. -/
theorem C6_rounded_two_decimals (hist : List HistoricalPoint) (H : Int)
    (h1 : 1 ≤ H) (h12 : H ≤ 12) (hlen : 6 ≤ hist.length)
    (hm : ∀ p ∈ hist, 1 ≤ p.month ∧ p.month ≤ 12) :
    ∃ b : ForecastBundle,
      predict_sales (some H) hist = .success b ∧
      (∀ p ∈ b.predictions, isRounded2 p.predicted_sales) ∧
      b.model_info.mse = round2 (mseVal hist) ∧
      isRounded2 b.model_info.mse ∧
      b.model_info.mape = round2 (100 * mape_raw hist) ∧
      isRounded2 b.model_info.mape := by
  refine ⟨_, predict_sales_ok H hist h1 h12 hlen hm, ?_, rfl,
    round2_mem_isRounded2 _, rfl, round2_mem_isRounded2 _⟩
  intro p hp
  simp only [List.mem_map] at hp
  obtain ⟨a, -, rfl⟩ := hp
  exact round2_mem_isRounded2 _

/-- C7: in a successful result `historical_data` has one entry per input
point, in input order, echoing year, month and total_sales unchanged and
adding the month name and the first-of-month ISO date; and
`model_info.training_data_points` is the series length. -/
theorem C7_historical_echo (hist : List HistoricalPoint) (H : Int)
    (h1 : 1 ≤ H) (h12 : H ≤ 12) (hlen : 6 ≤ hist.length)
    (hm : ∀ p ∈ hist, 1 ≤ p.month ∧ p.month ≤ 12) :
    ∃ b : ForecastBundle,
      predict_sales (some H) hist = .success b ∧
      b.historical_data.length = hist.length ∧
      (∀ k (hk : k < hist.length) (hk2 : k < b.historical_data.length),
        (b.historical_data.get ⟨k, hk2⟩).year = (hist.get ⟨k, hk⟩).year ∧
        (b.historical_data.get ⟨k, hk2⟩).month = (hist.get ⟨k, hk⟩).month ∧
        (b.historical_data.get ⟨k, hk2⟩).total_sales = (hist.get ⟨k, hk⟩).total_sales ∧
        (b.historical_data.get ⟨k, hk2⟩).month_name = monthName (hist.get ⟨k, hk⟩).month ∧
        (b.historical_data.get ⟨k, hk2⟩).date =
          dateStr (hist.get ⟨k, hk⟩).year (hist.get ⟨k, hk⟩).month) ∧
      b.model_info.training_data_points = hist.length := by
  refine ⟨_, predict_sales_ok H hist h1 h12 hlen hm, by simp, ?_, rfl⟩
  intro k hk hk2
  have hmap : (hist.map histEntryPure).get ⟨k, hk2⟩ = histEntryPure (hist.get ⟨k, hk⟩) := by
    simp [List.get_eq_getElem]
  rw [hmap]
  exact ⟨rfl, rfl, rfl, rfl, rfl⟩

theorem C1_forecast_points_chronology_witness :
    ((1:Int) ≤ 2 ∧ (2:Int) ≤ 12 ∧ 6 ≤ exHist.length ∧
      (∀ p ∈ exHist, 1 ≤ p.month ∧ p.month ≤ 12)) ∧
    (∃ b : ForecastBundle,
      predict_sales (some 2) exHist = .success b ∧
      (b.predictions.length : Int) = 2 ∧
      (∀ hk : 0 < b.predictions.length,
        ((b.predictions.get ⟨0, hk⟩).year, (b.predictions.get ⟨0, hk⟩).month) =
          calSucc (lastYM exHist).1 (lastYM exHist).2) ∧
      (∀ k (hk : k + 1 < b.predictions.length),
        ((b.predictions.get ⟨k + 1, hk⟩).year, (b.predictions.get ⟨k + 1, hk⟩).month) =
          calSucc (b.predictions.get ⟨k, Nat.lt_of_succ_lt hk⟩).year
            (b.predictions.get ⟨k, Nat.lt_of_succ_lt hk⟩).month) ∧
      (∀ k (hk : k < b.predictions.length),
        monthKey ((b.predictions.get ⟨k, hk⟩).year, (b.predictions.get ⟨k, hk⟩).month) =
          monthKey (lastYM exHist) + (k + 1)) ∧
      ((lastYM exHist).2 = 12 → ∀ hk : 0 < b.predictions.length,
        (b.predictions.get ⟨0, hk⟩).year = (lastYM exHist).1 + 1 ∧
        (b.predictions.get ⟨0, hk⟩).month = 1)) :=
  ⟨⟨by norm_num, by norm_num, by decide, by decide⟩,
   C1_forecast_points_chronology exHist 2 (by norm_num) (by norm_num) (by decide) (by decide)⟩

theorem C4_time_index_sequence_witness :
    (2 < (histFeatures exHist).length ∧ (1:ℕ) ≤ 3) ∧
    ((histFeatures exHist).length = exHist.length ∧
     (histFeatures exHist).get ⟨2, by rw [histFeatures_length]; decide⟩ 0 = ((2 + 1 : ℕ) : ℝ) ∧
     projFeature exHist 3 0 = ((exHist.length + 3 : ℕ) : ℝ)) :=
  ⟨⟨by rw [histFeatures_length]; decide, by norm_num⟩,
   C4_time_index_sequence exHist 2 3 (by rw [histFeatures_length]; decide) (by norm_num)⟩

theorem C5_scaler_fitted_once_witness :
    ((1:Int) ≤ 2 ∧ (2:Int) ≤ 12 ∧ 6 ≤ exHist.length ∧
      (∀ p ∈ exHist, 1 ≤ p.month ∧ p.month ≤ 12)) ∧
    (∃ b : ForecastBundle,
      predict_sales (some 2) exHist = .success b ∧
      ∀ k (hk : k < b.predictions.length),
        (b.predictions.get ⟨k, hk⟩).predicted_sales =
          round2 (lrPredict (scaledHist exHist) (yvals exHist)
            (fun j => (projFeature exHist (k + 1) j - colMean (histFeatures exHist) j) /
              colScale (histFeatures exHist) j))) :=
  ⟨⟨by norm_num, by norm_num, by decide, by decide⟩,
   C5_scaler_fitted_once exHist 2 (by norm_num) (by norm_num) (by decide) (by decide)⟩

theorem C6_rounded_two_decimals_witness :
    ((1:Int) ≤ 2 ∧ (2:Int) ≤ 12 ∧ 6 ≤ exHist.length ∧
      (∀ p ∈ exHist, 1 ≤ p.month ∧ p.month ≤ 12)) ∧
    (∃ b : ForecastBundle,
      predict_sales (some 2) exHist = .success b ∧
      (∀ p ∈ b.predictions, isRounded2 p.predicted_sales) ∧
      b.model_info.mse = round2 (mseVal exHist) ∧
      isRounded2 b.model_info.mse ∧
      b.model_info.mape = round2 (100 * mape_raw exHist) ∧
      isRounded2 b.model_info.mape) :=
  ⟨⟨by norm_num, by norm_num, by decide, by decide⟩,
   C6_rounded_two_decimals exHist 2 (by norm_num) (by norm_num) (by decide) (by decide)⟩

theorem C7_historical_echo_witness :
    ((1:Int) ≤ 2 ∧ (2:Int) ≤ 12 ∧ 6 ≤ exHist.length ∧
      (∀ p ∈ exHist, 1 ≤ p.month ∧ p.month ≤ 12)) ∧
    (∃ b : ForecastBundle,
      predict_sales (some 2) exHist = .success b ∧
      b.historical_data.length = exHist.length ∧
      (∀ k (hk : k < exHist.length) (hk2 : k < b.historical_data.length),
        (b.historical_data.get ⟨k, hk2⟩).year = (exHist.get ⟨k, hk⟩).year ∧
        (b.historical_data.get ⟨k, hk2⟩).month = (exHist.get ⟨k, hk⟩).month ∧
        (b.historical_data.get ⟨k, hk2⟩).total_sales = (exHist.get ⟨k, hk⟩).total_sales ∧
        (b.historical_data.get ⟨k, hk2⟩).month_name = monthName (exHist.get ⟨k, hk⟩).month ∧
        (b.historical_data.get ⟨k, hk2⟩).date =
          dateStr (exHist.get ⟨k, hk⟩).year (exHist.get ⟨k, hk⟩).month) ∧
      b.model_info.training_data_points = exHist.length) :=
  ⟨⟨by norm_num, by norm_num, by decide, by decide⟩,
   C7_historical_echo exHist 2 (by norm_num) (by norm_num) (by decide) (by decide)⟩
